import Mathlib

/-!
Verification of the MVCC key-value engine in
`src/haus_analytics_homework/src/server.py`.

Shallow embedding conventions:
* Transaction ids are wall-clock timestamps in the source (Python floats,
  used only with `==` and `<`); they are modelled as `Nat`.  The Python
  falsy ids (`None`, `0`, `''`, absent keyword) that the decorators test
  with `not txn_id` are all modelled by `0`, which is also the `xmax`
  live sentinel, exactly as in the source.
* Python dicts (`Server._database`, `Server._transactions`) are modelled
  as association lists with first-match lookup; assignment prepends a
  binding, which has the same observable lookup behaviour as in-place
  dict update.  The `defaultdict` read `self._database[key]` silently
  inserting an empty list is unobservable through `getChain` (missing
  key and empty chain both read as `[]`, and no operation distinguishes
  them), so it is not modelled as a state change.
* Mutating the `state` field of a `Transaction` object in place is
  modelled by rebinding the id to an updated copy; transactions are only
  reachable through the table, so this is faithful.
* Fallible code returns `Except`; the error value carries the state at
  raise time, since Python exceptions leave earlier mutations in place.
* The exception classes of the source are modelled by `EngineError`:
  `ValueError('no active transaction')`, `LookupError('transaction ID
  ... not found')`, `ValueError('expected state ...')`,
  `KeyError('key ... not found')` from `delete`, and the `KeyError`
  raised by the dict subscripts `self._transactions[...]`.
-/

/-- `TransactionState` enum, server.py lines 42-46. -/
inductive TransactionState
  | ACTIVE
  | COMMITTED
  | ABORTED
  | ABORTED_FAILED
deriving DecidableEq, Repr

/-- `Transaction`, server.py lines 49-61; `created_at` doubles as the id. -/
structure Transaction where
  created_at : Nat
  state : TransactionState
deriving DecidableEq, Repr

/-- `Transaction.is_visible_to`, server.py lines 63-72. -/
def Transaction.is_visible_to (t : Transaction) (curr_created_at : Nat) : Bool :=
  if t.state = TransactionState.ABORTED then false
  else if t.state = TransactionState.ABORTED_FAILED then false
  else
    let within_txn : Bool := t.created_at == curr_created_at
    let visible : Bool :=
      (t.state == TransactionState.COMMITTED) && decide (t.created_at < curr_created_at)
    within_txn || visible

/-- `Record`, server.py lines 14-24. -/
structure Record where
  value : String
  transaction_min : Nat
  transaction_max : Nat
deriving DecidableEq, Repr

/-- `Record.for_insert`, server.py lines 26-28. -/
def Record.for_insert (value : String) (transaction_min : Nat) : Record :=
  { value := value, transaction_min := transaction_min, transaction_max := 0 }

/-- The transaction table `Server._transactions` (a Python dict). -/
abbrev TxnTable := List (Nat × Transaction)

/-- Dict lookup `d.get(id, None)` / `d[id]` on the transaction table. -/
def lookupTxn : TxnTable → Nat → Option Transaction
  | [], _ => none
  | (i, t) :: rest, id => if i = id then some t else lookupTxn rest id

/-- Dict assignment `d[id] = txn` (covers both fresh insert and the in-place
`txn.state = ...` updates, see the module comment). -/
def setTxn (tab : TxnTable) (id : Nat) (txn : Transaction) : TxnTable :=
  (id, txn) :: tab

/-- The version store `Server._database` (a `defaultdict(list)`). -/
abbrev Database := List (String × List Record)

/-- `self._database[key]` as a read: the key's chain, `[]` when absent. -/
def getChain : Database → String → List Record
  | [], _ => []
  | (k, c) :: rest, key => if k = key then c else getChain rest key

/-- `self._database[key].append(record)`. -/
def appendRecord (db : Database) (key : String) (r : Record) : Database :=
  (key, getChain db key ++ [r]) :: db

/-- The mutable state of a `Server` instance, server.py lines 130-143. -/
structure ServerState where
  database : Database
  transactions : TxnTable
deriving DecidableEq, Repr

/-- A freshly constructed `Server()` before any operation. -/
def emptyServer : ServerState := { database := [], transactions := [] }

/-- The exceptions the engine can raise (see the module comment). -/
inductive EngineError
  | noActiveTransaction
  | transactionNotFound (txn_id : Nat)
  | transactionBadState (txn_id : Nat) (actual : TransactionState)
  | keyNotFound (key : String)
  | missingTransactionMin (txn_id : Nat)
  | poisonTargetMissing (txn_id : Nat)
deriving DecidableEq, Repr

deriving instance DecidableEq for Except

/-- Outcome of an engine call: normal return or exception, each carrying the
state as left behind by the call. -/
abbrev EngineResult (α : Type) := Except (EngineError × ServerState) (α × ServerState)

/-- `Server.start_transaction`, server.py lines 197-202.  The sampled clock
value `self._get_now_in_seconds()` is passed in as `now`. -/
def Server.start_transaction (s : ServerState) (now : Nat) : Nat × ServerState :=
  let txn : Transaction := { created_at := now, state := TransactionState.ACTIVE }
  (txn.created_at, { s with transactions := setTxn s.transactions txn.created_at txn })

/-- The `pre_transaction` decorator, server.py lines 98-114. -/
def pre_transaction {α : Type} (txn_id : Nat) (func : ServerState → EngineResult α)
    (s : ServerState) : EngineResult α :=
  if txn_id = 0 then Except.error (EngineError.noActiveTransaction, s)
  else
    match lookupTxn s.transactions txn_id with
    | none => Except.error (EngineError.transactionNotFound txn_id, s)
    | some txn =>
      if txn.state ≠ TransactionState.ACTIVE then
        Except.error (EngineError.transactionBadState txn_id txn.state, s)
      else func s

/-- The `post_transaction` decorator, server.py lines 117-127: on an escaping
error with a truthy `txn_id`, set that transaction's state to
`ABORTED_FAILED` and re-raise; the dict subscript itself can raise
`KeyError` (modelled by `poisonTargetMissing`). -/
def post_transaction {α : Type} (txn_id : Nat) (func : ServerState → EngineResult α)
    (s : ServerState) : EngineResult α :=
  match func s with
  | Except.ok r => Except.ok r
  | Except.error (e, s1) =>
    if txn_id = 0 then Except.error (e, s1)
    else
      match lookupTxn s1.transactions txn_id with
      | none => Except.error (EngineError.poisonTargetMissing txn_id, s1)
      | some txn =>
        let poisoned := { txn with state := TransactionState.ABORTED_FAILED }
        Except.error (e, { s1 with transactions := setTxn s1.transactions txn_id poisoned })

/-- `Server.commit_transaction`, server.py lines 204-210 (decorated with
`pre_transaction` only). -/
def Server.commit_transaction (txn_id : Nat) (s : ServerState) : EngineResult Unit :=
  pre_transaction txn_id (fun s0 =>
    match lookupTxn s0.transactions txn_id with
    | none => Except.ok ((), s0)
    | some txn =>
      let committed := { txn with state := TransactionState.COMMITTED }
      Except.ok ((), { s0 with transactions := setTxn s0.transactions txn_id committed })) s

/-- `Server.rollback_transaction`, server.py lines 212-218. -/
def Server.rollback_transaction (txn_id : Nat) (s : ServerState) : EngineResult Unit :=
  pre_transaction txn_id (fun s0 =>
    match lookupTxn s0.transactions txn_id with
    | none => Except.ok ((), s0)
    | some txn =>
      let aborted := { txn with state := TransactionState.ABORTED }
      Except.ok ((), { s0 with transactions := setTxn s0.transactions txn_id aborted })) s

/-- The `implicit_transaction` decorator, server.py lines 81-95: a falsy
`txn_id` means start a fresh transaction (sampling the clock, here `now`),
run the wrapped call with it, and commit it on success. -/
def implicit_transaction {α : Type} (txn_id now : Nat)
    (func : Nat → ServerState → EngineResult α) (s : ServerState) : EngineResult α :=
  if txn_id ≠ 0 then func txn_id s
  else
    let started := Server.start_transaction s now
    match func started.1 started.2 with
    | Except.error r => Except.error r
    | Except.ok (a, s2) =>
      match Server.commit_transaction started.1 s2 with
      | Except.error r => Except.error r
      | Except.ok (_, s3) => Except.ok (a, s3)

/-- The shared decorator stack `@implicit_transaction @pre_transaction
@post_transaction` applied to each mutating operation's body,
server.py lines 145-147, 152-154, 168-170, 180-182. -/
def mutOp {α : Type} (txn_id now : Nat) (body : Nat → ServerState → EngineResult α)
    (s : ServerState) : EngineResult α :=
  implicit_transaction txn_id now
    (fun t => pre_transaction t (post_transaction t (body t))) s

/-- The newest-first chain walk of `Server.get_record`, server.py
lines 158-166.  The dict subscript `self._transactions[record.transaction_min]`
raises when the id is absent, before the tombstone test, as in the source. -/
def scan_chain (transactions : TxnTable) (txn_id : Nat) :
    List Record → Except EngineError (Option Record)
  | [] => Except.ok none
  | record :: rest =>
    let delete_txn := lookupTxn transactions record.transaction_max
    match lookupTxn transactions record.transaction_min with
    | none => Except.error (EngineError.missingTransactionMin record.transaction_min)
    | some insert_txn =>
      if (match delete_txn with
          | some txn => txn.is_visible_to txn_id
          | none => false) then Except.ok none
      else if ! insert_txn.is_visible_to txn_id then scan_chain transactions txn_id rest
      else Except.ok (some record)

/-- Body of `Server.get_record`, server.py lines 155-166. -/
def get_record_body (key : String) (txn_id : Nat) (s : ServerState) :
    EngineResult (Option Record) :=
  if (getChain s.database key).isEmpty then Except.ok (none, s)
  else
    match scan_chain s.transactions txn_id (getChain s.database key).reverse with
    | Except.error e => Except.error (e, s)
    | Except.ok r => Except.ok (r, s)

/-- The decorated `Server.get_record`.  `now` is the clock sample used if the
call is implicit; internal calls pass an explicit nonzero `txn_id`, for which
`now` is ignored, so they supply the dummy `0`. -/
def Server.get_record (key : String) (txn_id now : Nat) (s : ServerState) :
    EngineResult (Option Record) :=
  mutOp txn_id now (fun t => get_record_body key t) s

/-- Body of `Server.get`, server.py lines 148-150 (a `Record` object is
always truthy, so `record.value if record else None` is an `Option.map`). -/
def get_body (key : String) (txn_id : Nat) (s : ServerState) :
    EngineResult (Option String) :=
  match Server.get_record key txn_id 0 s with
  | Except.error r => Except.error r
  | Except.ok (r, s1) => Except.ok (r.map Record.value, s1)

/-- The decorated `Server.get`. -/
def Server.get (key : String) (txn_id now : Nat) (s : ServerState) :
    EngineResult (Option String) :=
  mutOp txn_id now (fun t => get_body key t) s

/-- Body of `Server.delete`, server.py lines 183-195. -/
def delete_body (key : String) (txn_id : Nat) (s : ServerState) : EngineResult Unit :=
  if (getChain s.database key).isEmpty then
    Except.error (EngineError.keyNotFound key, s)
  else
    match Server.get_record key txn_id 0 s with
    | Except.error r => Except.error r
    | Except.ok (prev_record, s1) =>
      match prev_record with
      | none => Except.error (EngineError.keyNotFound key, s1)
      | some prev =>
        let record : Record :=
          { value := prev.value
            transaction_min := prev.transaction_min
            transaction_max := txn_id }
        Except.ok ((), { s1 with database := appendRecord s1.database key record })

/-- The decorated `Server.delete`. -/
def Server.delete (key : String) (txn_id now : Nat) (s : ServerState) : EngineResult Unit :=
  mutOp txn_id now (fun t => delete_body key t) s

/-- Body of `Server.put`, server.py lines 171-178: an internal decorated
`delete` when a record is visible, then the insert append. -/
def put_body (key value : String) (txn_id : Nat) (s : ServerState) : EngineResult Unit :=
  match Server.get_record key txn_id 0 s with
  | Except.error r => Except.error r
  | Except.ok (prev_record, s1) =>
    let afterUpdate : EngineResult Unit :=
      match prev_record with
      | some _ => Server.delete key txn_id 0 s1
      | none => Except.ok ((), s1)
    match afterUpdate with
    | Except.error r => Except.error r
    | Except.ok (_, s2) =>
      let record := Record.for_insert value txn_id
      Except.ok ((), { s2 with database := appendRecord s2.database key record })

/-- The decorated `Server.put`. -/
def Server.put (key value : String) (txn_id now : Nat) (s : ServerState) : EngineResult Unit :=
  mutOp txn_id now (fun t => put_body key value t) s

/-!  Trace layer: one engine entry point per step, errors folded into the
resulting state (the caller observes the exception; the state is whatever
the call left behind).  `now` fields carry the clock sample an operation
would draw if it starts a transaction. -/

/-- One engine entry point with its arguments. -/
inductive Op
  | get (key : String) (txn_id now : Nat)
  | put (key value : String) (txn_id now : Nat)
  | delete (key : String) (txn_id now : Nat)
  | start (now : Nat)
  | commit (txn_id : Nat)
  | rollback (txn_id : Nat)
deriving DecidableEq, Repr

/-- The state a call leaves behind, whether it returned or raised. -/
def resultState {α : Type} : EngineResult α → ServerState
  | Except.ok (_, s) => s
  | Except.error (_, s) => s

/-- Execute one engine entry point, keeping the resulting state. -/
def Op.step (s : ServerState) : Op → ServerState
  | Op.get k t n => resultState (Server.get k t n s)
  | Op.put k v t n => resultState (Server.put k v t n s)
  | Op.delete k t n => resultState (Server.delete k t n s)
  | Op.start n => (Server.start_transaction s n).2
  | Op.commit t => resultState (Server.commit_transaction t s)
  | Op.rollback t => resultState (Server.rollback_transaction t s)

/-- Run a sequence of engine operations. -/
def run (s : ServerState) : List Op → ServerState
  | [] => s
  | op :: rest => run (Op.step s op) rest

/-- The clock sample an operation consumes, if it starts a transaction
(an explicit `start`, or a mutation whose `txn_id` is falsy). -/
def opNow : Op → Option Nat
  | Op.get _ t n => if t = 0 then some n else none
  | Op.put _ _ t n => if t = 0 then some n else none
  | Op.delete _ t n => if t = 0 then some n else none
  | Op.start n => some n
  | Op.commit _ => none
  | Op.rollback _ => none

/-- The clock sample this step would consume is not an existing id
(the Clock contract of spec section 4.1). -/
def opFresh (s : ServerState) (op : Op) : Bool :=
  match opNow op with
  | some n => (lookupTxn s.transactions n).isNone
  | none => true

/-- Every step of the sequence consumes a fresh clock sample. -/
def freshRun (s : ServerState) : List Op → Bool
  | [] => true
  | op :: rest => opFresh s op && freshRun (Op.step s op) rest

/-- The records a transaction `t` appends: its inserts (`xmin = t`, live)
and its tombstone copies (`xmax = t`). -/
def writtenBy (t : Nat) (r : Record) : Bool :=
  r.transaction_max == t || (r.transaction_min == t && r.transaction_max == 0)

/-- Record selection as the spec's section 4.5 words it (the basis of claim
C2): walk newest-first; resolve `del` only for a non-sentinel `xmax`; a
visible tombstone yields absent; an invisible insert is skipped; otherwise
return the record.  The `xmin` lookup "must exist by invariant"; the
unreachable missing case is rendered as absent. -/
def selectRecordSpec (transactions : TxnTable) (txn_id : Nat) : List Record → Option Record
  | [] => none
  | r :: rest =>
    let del : Option Transaction :=
      if r.transaction_max ≠ 0 then lookupTxn transactions r.transaction_max else none
    match lookupTxn transactions r.transaction_min with
    | none => none
    | some ins =>
      if (match del with
          | some d => d.is_visible_to txn_id
          | none => false) then none
      else if ! ins.is_visible_to txn_id then selectRecordSpec transactions txn_id rest
      else some r

/-!  The line-protocol layer (`WebServer`), server.py lines 250-346. -/

/-- `Request`, server.py lines 232-237. -/
structure Request where
  command : String
  key : String
  value : String
deriving DecidableEq, Repr

/-- Python `request.rstrip('\n')`: strip every trailing newline. -/
def rstripNewlines (s : String) : String :=
  String.mk ((s.data.reverse.dropWhile (fun c => c = '\n')).reverse)

/-- Python `str.split(' ')` on a character list: split at every single
space, preserving empty fields. -/
def splitOnSpaces : List Char → List (List Char)
  | [] => [[]]
  | c :: rest =>
    let r := splitOnSpaces rest
    if c = ' ' then [] :: r
    else (c :: r.headD []) :: r.tail

/-- Python `stripped.split(' ', maxsplit=2)`: at most three parts, the third
keeping its inner spaces. -/
def pySplitMax2 (s : String) : List String :=
  match splitOnSpaces s.data with
  | [] => []
  | [a] => [String.mk a]
  | [a, b] => [String.mk a, String.mk b]
  | a :: b :: rest => [String.mk a, String.mk b, String.mk (List.intercalate [' '] rest)]

/-- `WebServer.parse`, server.py lines 330-346.  `Except.error` is the
`ValueError` message; `Except.ok none` is the `return None` for a `PUT`
with no value or a `DELETE` with no key. -/
def WebServer.parse (request : String) : Except String (Option Request) :=
  let stripped := rstripNewlines request
  if stripped = "" then Except.error "no arguments specified"
  else
    let arguments := pySplitMax2 stripped
    let command := arguments.headD ""
    let key := if arguments.length > 1 then arguments.getD 1 "" else ""
    let value := if arguments.length > 2 then arguments.getD 2 "" else ""
    if command = "PUT" ∧ value = "" then Except.ok none
    else if command = "DELETE" ∧ key = "" then Except.ok none
    else Except.ok (some { command := command, key := key, value := value })

/-- `COMMANDS`, server.py lines 222-229. -/
def COMMANDS : List String := ["GET", "PUT", "DELETE", "START", "COMMIT", "ROLLBACK"]

/-- The `mesg` field of an error response.  Python builds these with
`str.format` / `str(error)`; only the constructor and its payload are
modelled, not the final formatting of floats and enum names. -/
inductive Mesg
  | engine (e : EngineError)
  | invalidRequest (decoded : String)
  | keyNotFoundMesg (key : String)
deriving DecidableEq, Repr

/-- The JSON response body `session['output']`. -/
structure Output where
  status : String
  mesg : Option Mesg
  result : Option String
deriving DecidableEq, Repr

/-- Result of one loop iteration of `WebServer.handler` that wrote a reply:
the reply, the engine state, and the session's bound transaction id
(`0` = none bound). -/
structure WebStep where
  output : Output
  state : ServerState
  sessionTxn : Nat
deriving DecidableEq, Repr

/-- One iteration of the `WebServer.handler` loop, server.py lines 264-294,
on the decoded request line.  `parse` is called at line 267, OUTSIDE the
`try` that guards the command dispatch (lines 274-289), so its `ValueError`
escapes the coroutine: no reply is written and the session dies — modelled
by `none`.  Inside the dispatch, any `Exception` becomes an `Error` reply.
`now` is the clock sample for an implicit transaction. -/
def handler_step (s : ServerState) (sessionTxn now : Nat) (decoded : String) :
    Option WebStep :=
  match WebServer.parse decoded with
  | Except.error _ => none
  | Except.ok parsed =>
    match parsed with
    | none => some ⟨⟨"Error", some (Mesg.invalidRequest decoded), none⟩, s, sessionTxn⟩
    | some request =>
      if request.command ∉ COMMANDS then
        some ⟨⟨"Error", some (Mesg.invalidRequest decoded), none⟩, s, sessionTxn⟩
      else if request.command = "GET" then
        match Server.get request.key sessionTxn now s with
        | Except.ok (result, s1) =>
          match result with
          | some v =>
            if v ≠ "" then some ⟨⟨"Ok", none, some v⟩, s1, sessionTxn⟩
            else some ⟨⟨"Error", some (Mesg.keyNotFoundMesg request.key), none⟩, s1, sessionTxn⟩
          | none => some ⟨⟨"Error", some (Mesg.keyNotFoundMesg request.key), none⟩, s1, sessionTxn⟩
        | Except.error (e, s1) => some ⟨⟨"Error", some (Mesg.engine e), none⟩, s1, sessionTxn⟩
      else if request.command = "PUT" then
        match Server.put request.key request.value sessionTxn now s with
        | Except.ok (_, s1) => some ⟨⟨"Ok", none, none⟩, s1, sessionTxn⟩
        | Except.error (e, s1) => some ⟨⟨"Error", some (Mesg.engine e), none⟩, s1, sessionTxn⟩
      else if request.command = "DELETE" then
        match Server.delete request.key sessionTxn now s with
        | Except.ok (_, s1) => some ⟨⟨"Ok", none, none⟩, s1, sessionTxn⟩
        | Except.error (e, s1) => some ⟨⟨"Error", some (Mesg.engine e), none⟩, s1, sessionTxn⟩
      else if request.command = "START" then
        let started := Server.start_transaction s now
        some ⟨⟨"Ok", none, none⟩, started.2, started.1⟩
      else if request.command = "COMMIT" then
        match Server.commit_transaction sessionTxn s with
        | Except.ok (_, s1) => some ⟨⟨"Ok", none, none⟩, s1, 0⟩
        | Except.error (e, s1) => some ⟨⟨"Error", some (Mesg.engine e), none⟩, s1, sessionTxn⟩
      else
        match Server.rollback_transaction sessionTxn s with
        | Except.ok (_, s1) => some ⟨⟨"Ok", none, none⟩, s1, 0⟩
        | Except.error (e, s1) => some ⟨⟨"Error", some (Mesg.engine e), none⟩, s1, sessionTxn⟩

/-- The state after `post_transaction` poisons transaction `t` (whose current
entry is `txn`) in state `s`. -/
def poisonAt (s : ServerState) (t : Nat) (txn : Transaction) : ServerState :=
  { s with transactions := setTxn s.transactions t { txn with state := TransactionState.ABORTED_FAILED } }

/-- Lookups at ids other than `t` agree between two transaction tables:
the table evolved without touching any transaction but `t`. -/
def TPE (t : Nat) (tab tab2 : TxnTable) : Prop :=
  ∀ id, id ≠ t → lookupTxn tab2 id = lookupTxn tab id

/-- Operation trace of claim C6's failing scenario: an implicit insert of
`k = "v"` (transaction 1), two writers 2 and 3 both tombstoning `k`,
writer 2 commits, writer 3 rolls back, reader 4 starts. -/
def c6OpsWith : List Op :=
  [Op.put "k" "v" 0 1, Op.start 2, Op.start 3, Op.delete "k" 2 0,
   Op.delete "k" 3 0, Op.commit 2, Op.rollback 3, Op.start 4]

/-- The same trace with rolled-back transaction 3's write omitted. -/
def c6OpsWithout : List Op :=
  [Op.put "k" "v" 0 1, Op.start 2, Op.start 3, Op.delete "k" 2 0,
   Op.commit 2, Op.rollback 3, Op.start 4]

/-!  Helper lemmas about the table, the store, and the decorator stack. -/

theorem lookupTxn_setTxn_self (tab : TxnTable) (id : Nat) (txn : Transaction) :
    lookupTxn (setTxn tab id txn) id = some txn := by
  simp [setTxn, lookupTxn]

theorem lookupTxn_setTxn_ne (tab : TxnTable) (id id2 : Nat) (txn : Transaction)
    (h : id2 ≠ id) : lookupTxn (setTxn tab id txn) id2 = lookupTxn tab id2 := by
  simp [setTxn, lookupTxn, Ne.symm h]

theorem getChain_appendRecord_self (db : Database) (k : String) (r : Record) :
    getChain (appendRecord db k r) k = getChain db k ++ [r] := by
  simp [appendRecord, getChain]

theorem getChain_appendRecord_ne (db : Database) (k k2 : String) (r : Record)
    (h : k2 ≠ k) : getChain (appendRecord db k r) k2 = getChain db k2 := by
  simp [appendRecord, getChain, Ne.symm h]

theorem tpe_refl (t : Nat) (tab : TxnTable) : TPE t tab tab := fun _ _ => rfl

theorem tpe_trans {t : Nat} {a b c : TxnTable} (h1 : TPE t a b) (h2 : TPE t b c) :
    TPE t a c := fun id hid => (h2 id hid).trans (h1 id hid)

theorem tpe_setTxn (t : Nat) (tab : TxnTable) (txn : Transaction) :
    TPE t tab (setTxn tab t txn) := fun id hid => lookupTxn_setTxn_ne tab t id txn hid

/-- `mutOp` with an explicit id absent from the table: `TxnNotFound`,
state untouched. -/
theorem mutOp_not_found {α : Type} (t n : Nat) (body : Nat → ServerState → EngineResult α)
    (s : ServerState) (ht0 : t ≠ 0) (h : lookupTxn s.transactions t = none) :
    mutOp t n body s = Except.error (EngineError.transactionNotFound t, s) := by
  simp [mutOp, implicit_transaction, pre_transaction, ht0, h]

/-- `mutOp` with an explicit id whose transaction is not ACTIVE:
`TxnBadState`, state untouched. -/
theorem mutOp_bad_state {α : Type} (t n : Nat) (body : Nat → ServerState → EngineResult α)
    (s : ServerState) (txn : Transaction) (ht0 : t ≠ 0)
    (h : lookupTxn s.transactions t = some txn) (hst : txn.state ≠ TransactionState.ACTIVE) :
    mutOp t n body s = Except.error (EngineError.transactionBadState t txn.state, s) := by
  simp [mutOp, implicit_transaction, pre_transaction, ht0, h, hst]

/-- `mutOp` with a validated explicit ACTIVE id and a returning body:
the body's result verbatim. -/
theorem mutOp_ok {α : Type} {t : Nat} (n : Nat) {body : Nat → ServerState → EngineResult α}
    {s : ServerState} {txn : Transaction} {a : α} {s1 : ServerState}
    (ht0 : t ≠ 0) (h : lookupTxn s.transactions t = some txn)
    (hA : txn.state = TransactionState.ACTIVE) (hb : body t s = Except.ok (a, s1)) :
    mutOp t n body s = Except.ok (a, s1) := by
  simp [mutOp, implicit_transaction, pre_transaction, post_transaction, ht0, h, hA, hb]

/-- `mutOp` with a validated explicit ACTIVE id and a raising body: the
same error re-raised, with `t` poisoned to ABORTED_FAILED in the state
the body left behind. -/
theorem mutOp_err {α : Type} {t : Nat} (n : Nat) {body : Nat → ServerState → EngineResult α}
    {s : ServerState} {txn : Transaction} {e : EngineError} {s1 : ServerState}
    {txn1 : Transaction}
    (ht0 : t ≠ 0) (h : lookupTxn s.transactions t = some txn)
    (hA : txn.state = TransactionState.ACTIVE) (hb : body t s = Except.error (e, s1))
    (h1 : lookupTxn s1.transactions t = some txn1) :
    mutOp t n body s = Except.error (e, poisonAt s1 t txn1) := by
  simp [mutOp, implicit_transaction, pre_transaction, post_transaction, poisonAt,
    ht0, h, hA, hb, h1]

theorem get_record_body_resultState (key : String) (t : Nat) (s : ServerState) :
    resultState (get_record_body key t s) = s := by
  simp only [get_record_body]
  split
  · rfl
  · split <;> rfl

theorem get_record_body_ok_state {key : String} {t : Nat} {s : ServerState}
    {r : Option Record} {s1 : ServerState}
    (h : get_record_body key t s = Except.ok (r, s1)) : s1 = s := by
  have hs := get_record_body_resultState key t s
  rw [h] at hs
  exact hs

theorem scan_chain_error_shape (tab : TxnTable) (t : Nat) (l : List Record)
    (e : EngineError) (h : scan_chain tab t l = Except.error e) :
    ∃ m, e = EngineError.missingTransactionMin m := by
  induction l with
  | nil => simp [scan_chain] at h
  | cons r rest ih =>
    rcases hl : lookupTxn tab r.transaction_min with _ | ins <;>
      rw [scan_chain, hl] at h
    · simp at h
      exact ⟨r.transaction_min, h.symm⟩
    · simp only [] at h
      split at h
      · simp at h
      · split at h
        · exact ih h
        · simp at h

theorem get_record_body_error_shape {key : String} {t : Nat} {s : ServerState}
    {e : EngineError} {s1 : ServerState}
    (h : get_record_body key t s = Except.error (e, s1)) :
    (∃ m, e = EngineError.missingTransactionMin m) ∧ s1 = s := by
  simp only [get_record_body] at h
  split at h
  · simp at h
  · split at h
    · rename_i e2 heq
      simp only [Except.error.injEq, Prod.mk.injEq] at h
      exact ⟨h.1 ▸ scan_chain_error_shape _ _ _ _ heq, h.2.symm⟩
    · simp at h

/-- The state a `mutOp` with a validated explicit id leaves behind touches
no transaction other than `t` itself. -/
theorem mutOp_tpe {α : Type} (t n : Nat) (body : Nat → ServerState → EngineResult α)
    (s : ServerState) (ht0 : t ≠ 0)
    (hbody : TPE t s.transactions (resultState (body t s)).transactions) :
    TPE t s.transactions (resultState (mutOp t n body s)).transactions := by
  simp only [mutOp, implicit_transaction, if_pos ht0, pre_transaction, if_neg ht0]
  rcases hl : lookupTxn s.transactions t with _ | txn
  · exact tpe_refl t s.transactions
  · by_cases hA : txn.state = TransactionState.ACTIVE
    · simp only [hA, ne_eq, not_true_eq_false, if_false, ite_false, post_transaction]
      rcases hb : body t s with ⟨e, s1⟩ | ⟨a, s1⟩ <;> rw [hb] at hbody
      · simp only [if_neg ht0]
        rcases hl1 : lookupTxn s1.transactions t with _ | txn1
        · exact hbody
        · exact tpe_trans hbody (tpe_setTxn t s1.transactions _)
      · exact hbody
    · simp [hA]
      exact tpe_refl t s.transactions

theorem commit_tpe (t : Nat) (s : ServerState) :
    TPE t s.transactions (resultState (Server.commit_transaction t s)).transactions := by
  simp only [Server.commit_transaction, pre_transaction]
  by_cases ht0 : t = 0
  · simp [ht0]
    exact tpe_refl _ _
  · simp only [if_neg ht0]
    rcases hl : lookupTxn s.transactions t with _ | txn
    · exact tpe_refl _ _
    · by_cases hA : txn.state = TransactionState.ACTIVE
      · simp only [hA, ne_eq, not_true_eq_false, if_false, ite_false, hl]
        exact tpe_setTxn t s.transactions _
      · simp [hA]
        exact tpe_refl _ _

theorem rollback_tpe (t : Nat) (s : ServerState) :
    TPE t s.transactions (resultState (Server.rollback_transaction t s)).transactions := by
  simp only [Server.rollback_transaction, pre_transaction]
  by_cases ht0 : t = 0
  · simp [ht0]
    exact tpe_refl _ _
  · simp only [if_neg ht0]
    rcases hl : lookupTxn s.transactions t with _ | txn
    · exact tpe_refl _ _
    · by_cases hA : txn.state = TransactionState.ACTIVE
      · simp only [hA, ne_eq, not_true_eq_false, if_false, ite_false, hl]
        exact tpe_setTxn t s.transactions _
      · simp [hA]
        exact tpe_refl _ _

/-- A `mutOp` entered with a falsy id (implicit transaction) touches no
transaction other than the freshly started one (id `n`, the clock sample). -/
theorem mutOp_implicit_tpe {α : Type} (n : Nat) (body : Nat → ServerState → EngineResult α)
    (s : ServerState)
    (hbody : ∀ t0 s0, t0 ≠ 0 →
      TPE t0 s0.transactions (resultState (body t0 s0)).transactions) :
    TPE n s.transactions (resultState (mutOp 0 n body s)).transactions := by
  simp only [mutOp, implicit_transaction, ne_eq, not_true_eq_false, ite_false,
    if_neg (by simp : ¬ (0 : Nat) ≠ 0), Server.start_transaction]
  have hstep : TPE n s.transactions
      (setTxn s.transactions n { created_at := n, state := TransactionState.ACTIVE }) :=
    tpe_setTxn n s.transactions _
  set s0 : ServerState :=
    { s with transactions := setTxn s.transactions n { created_at := n, state := TransactionState.ACTIVE } } with hs0
  by_cases hn : n = 0
  · subst hn
    simp only [pre_transaction, if_pos rfl]
    exact hstep
  · simp only [pre_transaction, if_neg hn]
    have hl0 : lookupTxn s0.transactions n =
        some { created_at := n, state := TransactionState.ACTIVE } :=
      lookupTxn_setTxn_self s.transactions n _
    rw [hl0]
    simp only [ne_eq, not_true_eq_false, ite_false, if_false, post_transaction]
    rcases hb : body n s0 with ⟨e, s1⟩ | ⟨a, s1⟩ <;>
      have hb2 := hbody n s0 hn <;> rw [hb] at hb2
    · simp only [if_neg hn]
      rcases hl1 : lookupTxn s1.transactions n with _ | txn1
      · exact tpe_trans hstep hb2
      · exact tpe_trans hstep (tpe_trans hb2 (tpe_setTxn n s1.transactions _))
    · have hc := commit_tpe n s1
      rcases hco : Server.commit_transaction n s1 with ⟨e2, s3⟩ | ⟨u, s3⟩ <;>
        rw [hco] at hc <;> simp only [hco] <;>
        exact tpe_trans hstep (tpe_trans hb2 hc)

theorem tpe_get_record_op (key : String) (t n : Nat) (s : ServerState) (ht0 : t ≠ 0) :
    TPE t s.transactions (resultState (Server.get_record key t n s)).transactions := by
  apply mutOp_tpe t n _ s ht0
  rw [get_record_body_resultState]
  exact tpe_refl _ _

theorem get_body_resultState (key : String) (t : Nat) (s : ServerState) :
    resultState (get_body key t s) = resultState (Server.get_record key t 0 s) := by
  simp only [get_body]
  rcases h : Server.get_record key t 0 s with ⟨e, s1⟩ | ⟨r, s1⟩ <;> simp [resultState]

theorem tpe_get_body (key : String) (t : Nat) (s : ServerState) (ht0 : t ≠ 0) :
    TPE t s.transactions (resultState (get_body key t s)).transactions := by
  rw [get_body_resultState]
  exact tpe_get_record_op key t 0 s ht0

theorem tpe_get_op (key : String) (t n : Nat) (s : ServerState) (ht0 : t ≠ 0) :
    TPE t s.transactions (resultState (Server.get key t n s)).transactions :=
  mutOp_tpe t n _ s ht0 (tpe_get_body key t s ht0)

theorem tpe_delete_body (key : String) (t : Nat) (s : ServerState) (ht0 : t ≠ 0) :
    TPE t s.transactions (resultState (delete_body key t s)).transactions := by
  simp only [delete_body]
  split
  · exact tpe_refl _ _
  · have hg := tpe_get_record_op key t 0 s ht0
    rcases h : Server.get_record key t 0 s with ⟨e, s1⟩ | ⟨prev, s1⟩ <;> rw [h] at hg
    · exact hg
    · rcases prev with _ | r
      · simpa using hg
      · simpa using hg

theorem tpe_delete_op (key : String) (t n : Nat) (s : ServerState) (ht0 : t ≠ 0) :
    TPE t s.transactions (resultState (Server.delete key t n s)).transactions :=
  mutOp_tpe t n _ s ht0 (tpe_delete_body key t s ht0)

theorem tpe_put_body (key value : String) (t : Nat) (s : ServerState) (ht0 : t ≠ 0) :
    TPE t s.transactions (resultState (put_body key value t s)).transactions := by
  simp only [put_body]
  have hg := tpe_get_record_op key t 0 s ht0
  rcases h : Server.get_record key t 0 s with ⟨e, s1⟩ | ⟨prev, s1⟩ <;> rw [h] at hg
  · exact hg
  · rcases prev with _ | r
    · simpa using hg
    · simp only []
      have hd := tpe_delete_op key t 0 s1 ht0
      rcases h2 : Server.delete key t 0 s1 with ⟨e2, s2⟩ | ⟨u, s2⟩ <;> rw [h2] at hd
      · exact tpe_trans hg hd
      · exact tpe_trans hg hd

theorem tpe_put_op (key value : String) (t n : Nat) (s : ServerState) (ht0 : t ≠ 0) :
    TPE t s.transactions (resultState (Server.put key value t n s)).transactions :=
  mutOp_tpe t n _ s ht0 (tpe_put_body key value t s ht0)

/-- A `mutOp` whose explicit id refers to a non-ACTIVE transaction rejects
before running its body: the state is exactly the input state. -/
theorem mutOp_bad_state_resultState {α : Type} (t n : Nat)
    (body : Nat → ServerState → EngineResult α) (s : ServerState) (txn : Transaction)
    (ht0 : t ≠ 0) (h : lookupTxn s.transactions t = some txn)
    (hst : txn.state ≠ TransactionState.ACTIVE) :
    resultState (mutOp t n body s) = s := by
  rw [mutOp_bad_state t n body s txn ht0 h hst]
  rfl

theorem tpe_get_implicit (key : String) (m : Nat) (s : ServerState) :
    TPE m s.transactions (resultState (Server.get key 0 m s)).transactions :=
  mutOp_implicit_tpe m (fun t => get_body key t) s (fun t0 s0 ht => tpe_get_body key t0 s0 ht)

theorem tpe_get_record_implicit (key : String) (m : Nat) (s : ServerState) :
    TPE m s.transactions (resultState (Server.get_record key 0 m s)).transactions :=
  mutOp_implicit_tpe m (fun t => get_record_body key t) s (fun t0 s0 _ => by
    rw [get_record_body_resultState]
    exact tpe_refl _ _)

theorem tpe_delete_implicit (key : String) (m : Nat) (s : ServerState) :
    TPE m s.transactions (resultState (Server.delete key 0 m s)).transactions :=
  mutOp_implicit_tpe m (fun t => delete_body key t) s
    (fun t0 s0 ht => tpe_delete_body key t0 s0 ht)

theorem tpe_put_implicit (key value : String) (m : Nat) (s : ServerState) :
    TPE m s.transactions (resultState (Server.put key value 0 m s)).transactions :=
  mutOp_implicit_tpe m (fun t => put_body key value t) s
    (fun t0 s0 ht => tpe_put_body key value t0 s0 ht)

theorem commit_state_of_not_active (t : Nat) (s : ServerState) (txn : Transaction)
    (h : lookupTxn s.transactions t = some txn)
    (hst : txn.state ≠ TransactionState.ACTIVE) :
    resultState (Server.commit_transaction t s) = s := by
  simp only [Server.commit_transaction, pre_transaction]
  by_cases ht0 : t = 0
  · simp [ht0, resultState]
  · simp [ht0, h, hst, resultState]

theorem rollback_state_of_not_active (t : Nat) (s : ServerState) (txn : Transaction)
    (h : lookupTxn s.transactions t = some txn)
    (hst : txn.state ≠ TransactionState.ACTIVE) :
    resultState (Server.rollback_transaction t s) = s := by
  simp only [Server.rollback_transaction, pre_transaction]
  by_cases ht0 : t = 0
  · simp [ht0, resultState]
  · simp [ht0, h, hst, resultState]

/-- One engine step never changes the table entry of a transaction that is
already terminal, provided the step's clock sample (if it draws one) is
fresh. -/
theorem step_preserves_terminal (s : ServerState) (op : Op) (id : Nat) (txn : Transaction)
    (h : lookupTxn s.transactions id = some txn)
    (hterm : txn.state ≠ TransactionState.ACTIVE)
    (hfresh : opFresh s op = true) :
    lookupTxn (Op.step s op).transactions id = some txn := by
  have fresh_ne : ∀ m : Nat, lookupTxn s.transactions m = none → id ≠ m := by
    intro m hm he
    rw [he, hm] at h
    exact absurd h (by simp)
  cases op with
  | get k t m =>
    by_cases ht0 : t = 0
    · subst ht0
      have hm : lookupTxn s.transactions m = none := by
        simpa [opFresh, opNow, Option.isNone_iff_eq_none] using hfresh
      exact (tpe_get_implicit k m s id (fresh_ne m hm)).trans h
    · by_cases hid : id = t
      · subst hid
        show lookupTxn (resultState (Server.get k id m s)).transactions id = some txn
        rw [show Server.get k id m s = mutOp id m (fun t => get_body k t) s from rfl,
          mutOp_bad_state_resultState id m _ s txn ht0 h hterm]
        exact h
      · exact (tpe_get_op k t m s ht0 id hid).trans h
  | put k v t m =>
    by_cases ht0 : t = 0
    · subst ht0
      have hm : lookupTxn s.transactions m = none := by
        simpa [opFresh, opNow, Option.isNone_iff_eq_none] using hfresh
      exact (tpe_put_implicit k v m s id (fresh_ne m hm)).trans h
    · by_cases hid : id = t
      · subst hid
        show lookupTxn (resultState (Server.put k v id m s)).transactions id = some txn
        rw [show Server.put k v id m s = mutOp id m (fun t => put_body k v t) s from rfl,
          mutOp_bad_state_resultState id m _ s txn ht0 h hterm]
        exact h
      · exact (tpe_put_op k v t m s ht0 id hid).trans h
  | delete k t m =>
    by_cases ht0 : t = 0
    · subst ht0
      have hm : lookupTxn s.transactions m = none := by
        simpa [opFresh, opNow, Option.isNone_iff_eq_none] using hfresh
      exact (tpe_delete_implicit k m s id (fresh_ne m hm)).trans h
    · by_cases hid : id = t
      · subst hid
        show lookupTxn (resultState (Server.delete k id m s)).transactions id = some txn
        rw [show Server.delete k id m s = mutOp id m (fun t => delete_body k t) s from rfl,
          mutOp_bad_state_resultState id m _ s txn ht0 h hterm]
        exact h
      · exact (tpe_delete_op k t m s ht0 id hid).trans h
  | start m =>
    have hm : lookupTxn s.transactions m = none := by
      simpa [opFresh, opNow, Option.isNone_iff_eq_none] using hfresh
    show lookupTxn (setTxn s.transactions m _) id = some txn
    rw [lookupTxn_setTxn_ne _ _ _ _ (fresh_ne m hm)]
    exact h
  | commit t =>
    by_cases hid : id = t
    · subst hid
      show lookupTxn (resultState (Server.commit_transaction id s)).transactions id = some txn
      rw [commit_state_of_not_active id s txn h hterm]
      exact h
    · exact (commit_tpe t s id hid).trans h
  | rollback t =>
    by_cases hid : id = t
    · subst hid
      show lookupTxn (resultState (Server.rollback_transaction id s)).transactions id = some txn
      rw [rollback_state_of_not_active id s txn h hterm]
      exact h
    · exact (rollback_tpe t s id hid).trans h

/-- A run of engine operations with fresh clock samples never changes the
table entry of a transaction that is already terminal. -/
theorem run_preserves_terminal (ops : List Op) : ∀ (s : ServerState) (txn : Transaction)
    (id : Nat), lookupTxn s.transactions id = some txn →
    txn.state ≠ TransactionState.ACTIVE → freshRun s ops = true →
    lookupTxn (run s ops).transactions id = some txn := by
  induction ops with
  | nil =>
    intro s txn id h _ _
    exact h
  | cons op rest ih =>
    intro s txn id h hterm hfresh
    rw [freshRun, Bool.and_eq_true] at hfresh
    exact ih (Op.step s op) txn id
      (step_preserves_terminal s op id txn h hterm hfresh.1) hterm hfresh.2

theorem lookupTxn_none_of_lt (tab : TxnTable) (n : Nat) (h : ∀ p ∈ tab, p.1 < n) :
    lookupTxn tab n = none := by
  induction tab with
  | nil => rfl
  | cons p rest ih =>
    rcases p with ⟨i, t⟩
    have hi : i < n := h (i, t) (List.mem_cons_self _ _)
    rw [lookupTxn, if_neg (Nat.ne_of_lt hi)]
    exact ih fun q hq => h q (List.mem_cons_of_mem _ hq)

/-- Inversion: a successful `mutOp` with explicit nonzero id means the id
was present and ACTIVE and the body produced exactly this result. -/
theorem mutOp_ok_inv {α : Type} {t n : Nat} {body : Nat → ServerState → EngineResult α}
    {s : ServerState} {a : α} {s1 : ServerState} (ht0 : t ≠ 0)
    (h : mutOp t n body s = Except.ok (a, s1)) :
    ∃ txn, lookupTxn s.transactions t = some txn ∧
      txn.state = TransactionState.ACTIVE ∧ body t s = Except.ok (a, s1) := by
  simp only [mutOp, implicit_transaction, pre_transaction, post_transaction, ht0,
    if_true, ne_eq, not_false_eq_true, if_neg ht0] at h
  rcases hl : lookupTxn s.transactions t with _ | txn
  · rw [hl] at h; exact absurd h (by simp)
  · rw [hl] at h
    by_cases hA : txn.state = TransactionState.ACTIVE
    · refine ⟨txn, rfl, hA, ?_⟩
      simp only [hA, ne_eq, not_true_eq_false, if_false, ite_false] at h
      rcases hb : body t s with r | ⟨b, s2⟩
      · rcases r with ⟨e, s2⟩
        rw [hb] at h
        rcases hl2 : lookupTxn s2.transactions t with _ | txn2 <;> simp [hl2] at h
      · rw [hb] at h
        simpa using h
    · simp [hA] at h

/-!  Claim theorems. -/

/-- Claim C1, counterexample to its closing clause.  The claim states that
"a transaction committed with id equal to or greater than T is not visible
to T"; but `Transaction.is_visible_to` tests `created_at == curr_created_at`
first (the reader's own transaction), so a COMMITTED transaction whose id
equals the reader's id IS visible: at `X = ⟨5, COMMITTED⟩`, `T = 5` the
predicate returns `true` where the claim requires `false`. -/
theorem c1_counterexample :
    Transaction.is_visible_to ⟨5, TransactionState.COMMITTED⟩ 5 = true := by decide

/-- Claim C1 (amended): `is_visible_to X T` is true iff `X.state` is neither
ABORTED nor ABORTED_FAILED and either `X.created_at = T` or `X` is COMMITTED
with `X.created_at < T`; in particular an ACTIVE transaction with id
distinct from `T` is not visible, a transaction committed with id strictly
greater than `T` is not visible, and a committed transaction whose id equals
`T` (the reader's own) is visible. -/
theorem c1_visibility_amended (X : Transaction) (T : Nat) :
    (X.is_visible_to T = true ↔
      (X.state ≠ TransactionState.ABORTED ∧ X.state ≠ TransactionState.ABORTED_FAILED ∧
        (X.created_at = T ∨ (X.state = TransactionState.COMMITTED ∧ X.created_at < T)))) ∧
    (X.state = TransactionState.ACTIVE → X.created_at ≠ T → X.is_visible_to T = false) ∧
    (X.state = TransactionState.COMMITTED → T < X.created_at → X.is_visible_to T = false) ∧
    (X.state = TransactionState.COMMITTED → X.created_at = T → X.is_visible_to T = true) := by
  rcases X with ⟨c, st⟩
  cases st <;> simp [Transaction.is_visible_to] <;> omega

/-- Witness for `c1_visibility_amended` at a concrete input: an ACTIVE
transaction with id 7 is invisible to reader 9. -/
theorem c1_visibility_amended_witness :
    Transaction.is_visible_to ⟨7, TransactionState.ACTIVE⟩ 9 = false :=
  (c1_visibility_amended ⟨7, TransactionState.ACTIVE⟩ 9).2.1 rfl (by decide)

/-- Claim C6 is violated by the code (code bug): after writer 2's committed
delete of "k" and writer 3's rollback, reader 4 should observe "k" as
absent — and does so in the state where transaction 3's records were never
appended — yet in the actual state the code returns the old value "v":
transaction 3's rolled-back tombstone copy `⟨"v", 1, 3⟩` is selected
(its `xmax` transaction is ABORTED, hence not a visible tombstone, while
its copied `xmin` 1 is committed-visible), shadowing writer 2's committed
tombstone that sits deeper in the chain.  The second conjunct checks that
the comparison state is exactly the actual state with transaction 3's
records (`writtenBy 3`) removed. -/
theorem c6_rollback_leak_eval :
    lookupTxn (run emptyServer c6OpsWith).transactions 3 =
      some ⟨3, TransactionState.ABORTED⟩ ∧
    (getChain (run emptyServer c6OpsWith).database "k").filter
      (fun r => ! writtenBy 3 r) = getChain (run emptyServer c6OpsWithout).database "k" ∧
    Server.get "k" 4 0 (run emptyServer c6OpsWith) =
      Except.ok (some "v", run emptyServer c6OpsWith) ∧
    Server.get "k" 4 0 (run emptyServer c6OpsWithout) =
      Except.ok (none, run emptyServer c6OpsWithout) := by decide

/-- Claim C7: over any sequence of engine operations whose transaction
starts draw fresh clock samples (the spec's Clock contract), a transaction
that has reached a terminal state keeps its table entry — state included —
unchanged forever; commit and rollback on it are rejected with TxnBadState
leaving the state untouched, and error poisoning never rewrites it (it is
covered by the unchanged-entry conjunct, poisoning only ever targets a
transaction validated ACTIVE). -/
theorem c7_terminal_states_frozen (ops : List Op) (s : ServerState) (id : Nat)
    (txn : Transaction) (hid0 : id ≠ 0)
    (h : lookupTxn s.transactions id = some txn)
    (hterm : txn.state ≠ TransactionState.ACTIVE)
    (hfresh : freshRun s ops = true) :
    lookupTxn (run s ops).transactions id = some txn ∧
    Server.commit_transaction id s =
      Except.error (EngineError.transactionBadState id txn.state, s) ∧
    Server.rollback_transaction id s =
      Except.error (EngineError.transactionBadState id txn.state, s) := by
  refine ⟨run_preserves_terminal ops s txn id h hterm hfresh, ?_, ?_⟩ <;>
    simp [Server.commit_transaction, Server.rollback_transaction,
      pre_transaction, hid0, h, hterm]

/-- Witness for `c7_terminal_states_frozen`: transaction 1 is COMMITTED;
after a start, an explicit put, a commit, a rejected rollback of 1 and an
implicit get, its entry is unchanged, and commit/rollback on it fail with
TxnBadState. -/
theorem c7_terminal_states_frozen_witness :
    lookupTxn (run { database := [], transactions := [(1, ⟨1, TransactionState.COMMITTED⟩)] }
      [Op.start 2, Op.put "a" "x" 2 0, Op.commit 2, Op.rollback 1,
       Op.get "a" 0 3]).transactions 1 = some ⟨1, TransactionState.COMMITTED⟩ ∧
    Server.commit_transaction 1
        { database := [], transactions := [(1, ⟨1, TransactionState.COMMITTED⟩)] } =
      Except.error (EngineError.transactionBadState 1 TransactionState.COMMITTED,
        { database := [], transactions := [(1, ⟨1, TransactionState.COMMITTED⟩)] }) ∧
    Server.rollback_transaction 1
        { database := [], transactions := [(1, ⟨1, TransactionState.COMMITTED⟩)] } =
      Except.error (EngineError.transactionBadState 1 TransactionState.COMMITTED,
        { database := [], transactions := [(1, ⟨1, TransactionState.COMMITTED⟩)] }) :=
  c7_terminal_states_frozen
    [Op.start 2, Op.put "a" "x" 2 0, Op.commit 2, Op.rollback 1, Op.get "a" 0 3]
    { database := [], transactions := [(1, ⟨1, TransactionState.COMMITTED⟩)] }
    1 ⟨1, TransactionState.COMMITTED⟩ (by decide) (by decide) (by decide) (by decide)

/-- Claim C8, counterexample to its universal part.  The engine's timestamp
source is the raw wall clock (`time.time()`, injectable through
`_get_now_in_seconds`, sampled by `start_transaction`); nothing in the code
enforces distinct or increasing samples.  With a clock that repeats the
sample 5, the second `start_transaction` call returns id 5 again — not
distinct from nor greater than the previously allocated id 5 — and rebinds
the table entry of the already-committed transaction 5 to a fresh ACTIVE
one. -/
theorem c8_counterexample :
    (Server.start_transaction (Op.step (Op.step emptyServer (Op.start 5)) (Op.commit 5)) 5).1
      = 5 ∧
    lookupTxn (run emptyServer [Op.start 5, Op.commit 5, Op.start 5]).transactions 5 =
      some ⟨5, TransactionState.ACTIVE⟩ := by decide

/-- Claim C8 (amended): when the sampled clock value is strictly greater
than every transaction id in the table — the spec's Clock contract, which
the default wall-clock source does not itself guarantee — `start_transaction`
returns that value and registers a fresh ACTIVE transaction under it: the id
was not previously allocated, and every other entry is untouched. -/
theorem c8_start_transaction_amended (s : ServerState) (now : Nat)
    (hgt : ∀ p ∈ s.transactions, p.1 < now) :
    (Server.start_transaction s now).1 = now ∧
    lookupTxn s.transactions now = none ∧
    lookupTxn (Server.start_transaction s now).2.transactions now =
      some ⟨now, TransactionState.ACTIVE⟩ ∧
    (∀ id, id ≠ now → lookupTxn (Server.start_transaction s now).2.transactions id =
      lookupTxn s.transactions id) :=
  ⟨rfl, lookupTxn_none_of_lt s.transactions now hgt, lookupTxn_setTxn_self _ _ _,
    fun id hid => lookupTxn_setTxn_ne _ _ _ _ hid⟩

/-- Witness for `c8_start_transaction_amended` with clock sample 7 over a
table holding only the committed transaction 3. -/
theorem c8_start_transaction_amended_witness :
    lookupTxn (Server.start_transaction
        { database := [], transactions := [(3, ⟨3, TransactionState.COMMITTED⟩)] }
        7).2.transactions 7 = some ⟨7, TransactionState.ACTIVE⟩ :=
  (c8_start_transaction_amended
    { database := [], transactions := [(3, ⟨3, TransactionState.COMMITTED⟩)] }
    7 (by decide)).2.2.1

/-- Claim C9, counterexample.  The claim says an empty request line is
answered on the same connection with a JSON Error reply whose mesg is
"no arguments specified" and that the session continues; but
`WebServer.handler` calls `parse` at line 267, OUTSIDE the `try` guarding
the dispatch, so the `ValueError` escapes the coroutine: no reply is
written and the session dies (`handler_step` yields `none`, not a reply). -/
theorem c9_counterexample : handler_step emptyServer 0 1 "" = none := by decide

/-- Claim C9 (amended): on an empty request line (with or without the
trailing newline), `WebServer.parse` raises ValueError with message
"no arguments specified"; the handler invokes parse outside its dispatch
try-block, so the exception escapes unhandled: no response is written and
the session terminates, whatever the engine state and session. -/
theorem c9_empty_line_amended (s : ServerState) (sessionTxn now : Nat) :
    WebServer.parse "" = Except.error "no arguments specified" ∧
    WebServer.parse "\n" = Except.error "no arguments specified" ∧
    handler_step s sessionTxn now "" = none ∧
    handler_step s sessionTxn now "\n" = none := by
  have h1 : WebServer.parse "" = Except.error "no arguments specified" := by decide
  have h2 : WebServer.parse "\n" = Except.error "no arguments specified" := by decide
  exact ⟨h1, h2, by simp [handler_step, h1], by simp [handler_step, h2]⟩

/-- Claim C10: `commit_transaction` / `rollback_transaction` with a falsy
transaction id (Python `None`, `0`, `''` or an absent keyword — all
modelled by `0`) raise ValueError('no active transaction') before the
Transaction Table is consulted — the result is this error for EVERY table
content, even one containing an ACTIVE entry under the sentinel — with both
the table and the version store unchanged; the error is a distinct
constructor from TxnNotFound; and a protocol COMMIT/ROLLBACK on a session
with no bound transaction surfaces exactly this error, leaving the engine
state and session unchanged. -/
theorem c10_falsy_txn_id (s : ServerState) (now : Nat) :
    Server.commit_transaction 0 s = Except.error (EngineError.noActiveTransaction, s) ∧
    Server.rollback_transaction 0 s = Except.error (EngineError.noActiveTransaction, s) ∧
    (∀ i : Nat, EngineError.noActiveTransaction ≠ EngineError.transactionNotFound i) ∧
    handler_step s 0 now "COMMIT" =
      some ⟨⟨"Error", some (Mesg.engine EngineError.noActiveTransaction), none⟩, s, 0⟩ ∧
    handler_step s 0 now "ROLLBACK" =
      some ⟨⟨"Error", some (Mesg.engine EngineError.noActiveTransaction), none⟩, s, 0⟩ := by
  have hc : Server.commit_transaction 0 s =
      Except.error (EngineError.noActiveTransaction, s) := by
    simp [Server.commit_transaction, pre_transaction]
  have hr : Server.rollback_transaction 0 s =
      Except.error (EngineError.noActiveTransaction, s) := by
    simp [Server.rollback_transaction, pre_transaction]
  have hpc : WebServer.parse "COMMIT" = Except.ok (some ⟨"COMMIT", "", ""⟩) := by decide
  have hpr : WebServer.parse "ROLLBACK" = Except.ok (some ⟨"ROLLBACK", "", ""⟩) := by decide
  refine ⟨hc, hr, fun i => by simp, ?_, ?_⟩
  · simp [handler_step, hpc, COMMANDS, hc]
  · simp [handler_step, hpr, COMMANDS, hr]

/-- Witness for `c10_falsy_txn_id` (its only hypotheses are the inner
disequality arguments): at the empty server, a COMMIT with no bound
transaction raises 'no active transaction' and changes nothing. -/
theorem c10_falsy_txn_id_witness :
    Server.commit_transaction 0 emptyServer =
      Except.error (EngineError.noActiveTransaction, emptyServer) :=
  (c10_falsy_txn_id emptyServer 5).1

/-!  Helpers for claims C2, C3, C4, C5. -/

theorem scan_chain_eq_selectSpec (tab : TxnTable) (t : Nat) (l : List Record)
    (h0 : lookupTxn tab 0 = none)
    (hx : ∀ r ∈ l, (lookupTxn tab r.transaction_min).isSome) :
    scan_chain tab t l = Except.ok (selectRecordSpec tab t l) := by
  induction l with
  | nil => rfl
  | cons r rest ih =>
    have hx0 : (lookupTxn tab r.transaction_min).isSome :=
      hx r (List.mem_cons_self _ _)
    rcases hl : lookupTxn tab r.transaction_min with _ | ins
    · rw [hl] at hx0
      simp at hx0
    · have hdel : (if r.transaction_max ≠ 0 then lookupTxn tab r.transaction_max else none)
          = lookupTxn tab r.transaction_max := by
        by_cases hm : r.transaction_max = 0
        · rw [hm]
          simp [h0]
        · simp [hm]
      rw [scan_chain, selectRecordSpec, hl]
      simp only [hdel]
      split
      · rfl
      · split
        · exact ih fun q hq => hx q (List.mem_cons_of_mem _ hq)
        · rfl

theorem grb_some_not_isEmpty {k : String} {t : Nat} {s : ServerState} {r : Record}
    (hb : get_record_body k t s = Except.ok (some r, s)) :
    (getChain s.database k).isEmpty = false := by
  by_cases h : (getChain s.database k).isEmpty
  · rw [get_record_body, if_pos h] at hb
    simp at hb
  · simpa using h

theorem grb_none_iff (k : String) (t : Nat) (s : ServerState) :
    get_record_body k t s = Except.ok (none, s) ↔
      (getChain s.database k = [] ∨
        scan_chain s.transactions t (getChain s.database k).reverse = Except.ok none) := by
  rw [get_record_body]
  by_cases h : (getChain s.database k).isEmpty
  · simp [h, List.isEmpty_iff.mp h]
  · rw [if_neg h]
    have hne : getChain s.database k ≠ [] := fun he => h (by simp [he])
    constructor
    · intro he
      rcases hs : scan_chain s.transactions t (getChain s.database k).reverse with e | ro
      · rw [hs] at he
        simp at he
      · rw [hs] at he
        simp only [Except.ok.injEq, Prod.mk.injEq] at he
        exact Or.inr (by rw [he.1])
    · intro hor
      rcases hor with hnil | hscan
      · exact absurd hnil hne
      · rw [hscan]

theorem delete_explicit_ok {k : String} {t : Nat} {s : ServerState} {txn : Transaction}
    {r : Record} (ht0 : t ≠ 0) (hl : lookupTxn s.transactions t = some txn)
    (hA : txn.state = TransactionState.ACTIVE)
    (hb : get_record_body k t s = Except.ok (some r, s)) :
    Server.delete k t 0 s = Except.ok ((),
      { s with database := appendRecord s.database k ⟨r.value, r.transaction_min, t⟩ }) := by
  have hg : Server.get_record k t 0 s = Except.ok (some r, s) := mutOp_ok 0 ht0 hl hA hb
  apply mutOp_ok 0 ht0 hl hA
  simp only [delete_body, grb_some_not_isEmpty hb, Bool.false_eq_true, if_false, hg]

/-- Claim C2: for a reader id `T` present in the Transaction Table, under the
preconditions that every record's `xmin` is a table key and that the
reserved sentinel `0` is not a table key (spec section 3), the record
selection of `Server.get_record` computes exactly the spec's newest-first
walk `selectRecordSpec` — absent on no chain, absent at a visible tombstone,
skipping invisible inserts, returning the first visible record, absent when
the walk exhausts — and `Server.get` returns that record's value (absent
when none is selected). -/
theorem c2_get_record_refines_selection (s : ServerState) (k : String) (T : Nat)
    (h0 : lookupTxn s.transactions 0 = none)
    (hT : (lookupTxn s.transactions T).isSome)
    (hx : ∀ r ∈ getChain s.database k, (lookupTxn s.transactions r.transaction_min).isSome) :
    get_record_body k T s =
      Except.ok (selectRecordSpec s.transactions T (getChain s.database k).reverse, s) ∧
    (∀ r s1, Server.get_record k T 0 s = Except.ok (r, s1) →
      Server.get k T 0 s = Except.ok (r.map Record.value, s1)) := by
  have ht0 : T ≠ 0 := by
    intro he
    rw [he, h0] at hT
    simp at hT
  constructor
  · rw [get_record_body]
    by_cases h : (getChain s.database k).isEmpty
    · rw [if_pos h, List.isEmpty_iff.mp h]
      rfl
    · rw [if_neg h, scan_chain_eq_selectSpec s.transactions T _ h0
        (fun q hq => hx q (List.mem_reverse.mp hq))]
  · intro r s1 hok
    have hok2 : mutOp T 0 (fun t => get_record_body k t) s = Except.ok (r, s1) := hok
    obtain ⟨txn, hl, hA, hb⟩ := mutOp_ok_inv ht0 hok2
    exact mutOp_ok 0 ht0 hl hA (by rw [get_body, hok])

/-- Witness for `c2_get_record_refines_selection`: a single live record
inserted by the ACTIVE reader itself is selected, and `get` returns its
value. -/
theorem c2_get_record_refines_selection_witness :
    get_record_body "a" 5
        { database := [("a", [⟨"x", 5, 0⟩])],
          transactions := [(5, ⟨5, TransactionState.ACTIVE⟩)] } =
      Except.ok (some ⟨"x", 5, 0⟩,
        { database := [("a", [⟨"x", 5, 0⟩])],
          transactions := [(5, ⟨5, TransactionState.ACTIVE⟩)] }) ∧
    Server.get "a" 5 0
        { database := [("a", [⟨"x", 5, 0⟩])],
          transactions := [(5, ⟨5, TransactionState.ACTIVE⟩)] } =
      Except.ok (some "x",
        { database := [("a", [⟨"x", 5, 0⟩])],
          transactions := [(5, ⟨5, TransactionState.ACTIVE⟩)] }) := by
  have h := c2_get_record_refines_selection
    { database := [("a", [⟨"x", 5, 0⟩])],
      transactions := [(5, ⟨5, TransactionState.ACTIVE⟩)] }
    "a" 5 (by decide) (by decide) (by decide)
  exact ⟨h.1, h.2 (some ⟨"x", 5, 0⟩) _ (by decide)⟩

/-- Claim C3: each mutating operation (`get`, `get_record`, `put`, `delete`)
called with an explicit (truthy) transaction id `t`: the pre-validation
errors TxnNotFound (id absent) and TxnBadState (transaction not ACTIVE) are
raised before the body runs and leave the state — hence every transaction —
untouched; whereas when validation passes and the operation body raises any
error, the engine re-raises the same error after setting `t`'s state to
ABORTED_FAILED in the state the body left behind. -/
theorem c3_error_poisoning (s : ServerState) (key value : String) (t n : Nat)
    (ht0 : t ≠ 0) :
    (lookupTxn s.transactions t = none →
      Server.get key t n s = Except.error (EngineError.transactionNotFound t, s) ∧
      Server.get_record key t n s = Except.error (EngineError.transactionNotFound t, s) ∧
      Server.put key value t n s = Except.error (EngineError.transactionNotFound t, s) ∧
      Server.delete key t n s = Except.error (EngineError.transactionNotFound t, s)) ∧
    (∀ txn, lookupTxn s.transactions t = some txn →
      txn.state ≠ TransactionState.ACTIVE →
      Server.get key t n s = Except.error (EngineError.transactionBadState t txn.state, s) ∧
      Server.get_record key t n s =
        Except.error (EngineError.transactionBadState t txn.state, s) ∧
      Server.put key value t n s =
        Except.error (EngineError.transactionBadState t txn.state, s) ∧
      Server.delete key t n s =
        Except.error (EngineError.transactionBadState t txn.state, s)) ∧
    (∀ txn, lookupTxn s.transactions t = some txn →
      txn.state = TransactionState.ACTIVE →
      ∀ e s1 txn1, lookupTxn s1.transactions t = some txn1 →
      (get_body key t s = Except.error (e, s1) →
        Server.get key t n s = Except.error (e, poisonAt s1 t txn1)) ∧
      (get_record_body key t s = Except.error (e, s1) →
        Server.get_record key t n s = Except.error (e, poisonAt s1 t txn1)) ∧
      (put_body key value t s = Except.error (e, s1) →
        Server.put key value t n s = Except.error (e, poisonAt s1 t txn1)) ∧
      (delete_body key t s = Except.error (e, s1) →
        Server.delete key t n s = Except.error (e, poisonAt s1 t txn1))) := by
  refine ⟨fun h => ⟨?_, ?_, ?_, ?_⟩, fun txn h hst => ⟨?_, ?_, ?_, ?_⟩,
    fun txn h hA e s1 txn1 h1 =>
      ⟨fun hb => ?_, fun hb => ?_, fun hb => ?_, fun hb => ?_⟩⟩ <;>
    first
      | exact mutOp_not_found t n _ s ht0 h
      | exact mutOp_bad_state t n _ s txn ht0 h hst
      | exact mutOp_err n ht0 h hA hb h1

/-- Witness for `c3_error_poisoning`: a put under an unknown id raises
TxnNotFound without poisoning anything, and a delete of a missing key under
an ACTIVE transaction raises KeyNotFound with that transaction poisoned to
ABORTED_FAILED. -/
theorem c3_error_poisoning_witness :
    Server.put "a" "v" 9 0 emptyServer =
      Except.error (EngineError.transactionNotFound 9, emptyServer) ∧
    Server.delete "a" 3 0
        { database := [], transactions := [(3, ⟨3, TransactionState.ACTIVE⟩)] } =
      Except.error (EngineError.keyNotFound "a",
        poisonAt { database := [], transactions := [(3, ⟨3, TransactionState.ACTIVE⟩)] }
          3 ⟨3, TransactionState.ACTIVE⟩) :=
  ⟨((c3_error_poisoning emptyServer "a" "v" 9 0 (by decide)).1 (by decide)).2.2.1,
   (((c3_error_poisoning
        { database := [], transactions := [(3, ⟨3, TransactionState.ACTIVE⟩)] }
        "a" "v" 3 0 (by decide)).2.2 ⟨3, TransactionState.ACTIVE⟩ (by decide) rfl
        (EngineError.keyNotFound "a")
        { database := [], transactions := [(3, ⟨3, TransactionState.ACTIVE⟩)] }
        ⟨3, TransactionState.ACTIVE⟩ (by decide)).2.2.2 (by decide))⟩

/-- Claim C4: `put(k, v, t)` under a present ACTIVE explicit transaction
`t`: when some record of `k` is visible to `t` (the selection returns one),
it first appends a tombstone copy of that record carrying `t` in `xmax`
(the internal delete), then appends the live record `⟨v, t, 0⟩`; when no
record is visible it appends only the live record; in both cases the chain
is extended at the tail (no record mutated or removed), every other key's
chain is untouched, and the transaction table is unchanged. -/
theorem c4_put_appends (s : ServerState) (k v : String) (t : Nat) (txn : Transaction)
    (ht0 : t ≠ 0) (hl : lookupTxn s.transactions t = some txn)
    (hA : txn.state = TransactionState.ACTIVE) :
    (∀ r, get_record_body k t s = Except.ok (some r, s) →
      ∃ s2, Server.put k v t 0 s = Except.ok ((), s2) ∧
        s2.transactions = s.transactions ∧
        getChain s2.database k = getChain s.database k ++
          [⟨r.value, r.transaction_min, t⟩, Record.for_insert v t] ∧
        ∀ k2, k2 ≠ k → getChain s2.database k2 = getChain s.database k2) ∧
    (get_record_body k t s = Except.ok (none, s) →
      ∃ s2, Server.put k v t 0 s = Except.ok ((), s2) ∧
        s2.transactions = s.transactions ∧
        getChain s2.database k = getChain s.database k ++ [Record.for_insert v t] ∧
        ∀ k2, k2 ≠ k → getChain s2.database k2 = getChain s.database k2) := by
  constructor
  · intro r hb
    have hg : Server.get_record k t 0 s = Except.ok (some r, s) := mutOp_ok 0 ht0 hl hA hb
    have hd := delete_explicit_ok ht0 hl hA hb
    refine ⟨⟨appendRecord (appendRecord s.database k ⟨r.value, r.transaction_min, t⟩) k
        (Record.for_insert v t), s.transactions⟩, ?_, rfl, ?_, ?_⟩
    · exact mutOp_ok 0 ht0 hl hA (by rw [put_body, hg]; simp only [hd])
    · rw [getChain_appendRecord_self, getChain_appendRecord_self, List.append_assoc]
      rfl
    · intro k2 hk2
      rw [getChain_appendRecord_ne _ _ _ _ hk2, getChain_appendRecord_ne _ _ _ _ hk2]
  · intro hb
    have hg : Server.get_record k t 0 s = Except.ok (none, s) := mutOp_ok 0 ht0 hl hA hb
    refine ⟨⟨appendRecord s.database k (Record.for_insert v t), s.transactions⟩,
      ?_, rfl, ?_, ?_⟩
    · exact mutOp_ok 0 ht0 hl hA (by rw [put_body, hg])
    · rw [getChain_appendRecord_self]
    · intro k2 hk2
      rw [getChain_appendRecord_ne _ _ _ _ hk2]

/-- Witness for `c4_put_appends`: updating a key whose live record the
ACTIVE writer 5 itself inserted appends the tombstone copy `⟨"x", 5, 5⟩`
and then the new live record `⟨"y", 5, 0⟩`. -/
theorem c4_put_appends_witness :
    ∃ s2, Server.put "a" "y" 5 0
        { database := [("a", [⟨"x", 5, 0⟩])],
          transactions := [(5, ⟨5, TransactionState.ACTIVE⟩)] } = Except.ok ((), s2) ∧
      s2.transactions = [(5, ⟨5, TransactionState.ACTIVE⟩)] ∧
      getChain s2.database "a" = [⟨"x", 5, 0⟩, ⟨"x", 5, 5⟩, ⟨"y", 5, 0⟩] ∧
      ∀ k2, k2 ≠ "a" → getChain s2.database k2 = getChain
        (({ database := [("a", [⟨"x", 5, 0⟩])],
            transactions := [(5, ⟨5, TransactionState.ACTIVE⟩)] } : ServerState)).database k2 :=
  (c4_put_appends
    { database := [("a", [⟨"x", 5, 0⟩])],
      transactions := [(5, ⟨5, TransactionState.ACTIVE⟩)] }
    "a" "y" 5 ⟨5, TransactionState.ACTIVE⟩ (by decide) (by decide) rfl).1
    ⟨"x", 5, 0⟩ (by decide)

/-- Claim C5: `delete(k, t)` under a present ACTIVE explicit transaction
`t` raises KeyNotFound exactly when `k` has no chain or the newest-first
walk finds no record visible to `t` (in which case `t` is poisoned by the
wrapper, the version store untouched); otherwise it raises nothing and
appends exactly one record copying the visible record's value and `xmin`
with `xmax = t`, leaving other keys and the transaction table unchanged. -/
theorem c5_delete_contract (s : ServerState) (k : String) (t : Nat) (txn : Transaction)
    (ht0 : t ≠ 0) (hl : lookupTxn s.transactions t = some txn)
    (hA : txn.state = TransactionState.ACTIVE) :
    ((∃ s2, Server.delete k t 0 s = Except.error (EngineError.keyNotFound k, s2)) ↔
      (getChain s.database k = [] ∨
        scan_chain s.transactions t (getChain s.database k).reverse = Except.ok none)) ∧
    (get_record_body k t s = Except.ok (none, s) →
      Server.delete k t 0 s =
        Except.error (EngineError.keyNotFound k, poisonAt s t txn)) ∧
    (∀ r, get_record_body k t s = Except.ok (some r, s) →
      Server.delete k t 0 s = Except.ok ((),
        { s with database := appendRecord s.database k ⟨r.value, r.transaction_min, t⟩ }) ∧
      getChain (appendRecord s.database k ⟨r.value, r.transaction_min, t⟩) k =
        getChain s.database k ++ [⟨r.value, r.transaction_min, t⟩] ∧
      ∀ k2, k2 ≠ k →
        getChain (appendRecord s.database k ⟨r.value, r.transaction_min, t⟩) k2 =
          getChain s.database k2) := by
  have hnone : get_record_body k t s = Except.ok (none, s) →
      Server.delete k t 0 s =
        Except.error (EngineError.keyNotFound k, poisonAt s t txn) := by
    intro hb
    have hg : Server.get_record k t 0 s = Except.ok (none, s) := mutOp_ok 0 ht0 hl hA hb
    apply mutOp_err 0 ht0 hl hA _ hl
    rw [delete_body]
    by_cases h : (getChain s.database k).isEmpty
    · rw [if_pos h]
    · rw [if_neg h, hg]
  refine ⟨?_, hnone, fun r hb => ⟨delete_explicit_ok ht0 hl hA hb,
    getChain_appendRecord_self _ _ _, fun k2 hk2 => getChain_appendRecord_ne _ _ _ _ hk2⟩⟩
  constructor
  · rintro ⟨s2, herr⟩
    rw [← grb_none_iff]
    rcases hbody : get_record_body k t s with ⟨e, s1⟩ | ⟨opt, s1⟩
    · obtain ⟨⟨m, hm⟩, hseq⟩ := get_record_body_error_shape hbody
      subst hm
      rw [hseq] at hbody
      have hemp : ¬ ((getChain s.database k).isEmpty = true) := by
        intro hemp
        rw [get_record_body, if_pos hemp] at hbody
        simp at hbody
      have hg : Server.get_record k t 0 s =
          Except.error (EngineError.missingTransactionMin m, poisonAt s t txn) :=
        mutOp_err 0 ht0 hl hA hbody hl
      have hdb : delete_body k t s =
          Except.error (EngineError.missingTransactionMin m, poisonAt s t txn) := by
        rw [delete_body, if_neg hemp, hg]
      have hpl : lookupTxn (poisonAt s t txn).transactions t =
          some { txn with state := TransactionState.ABORTED_FAILED } :=
        lookupTxn_setTxn_self _ _ _
      have hdel := mutOp_err 0 ht0 hl hA hdb hpl
      have hcontr : Server.delete k t 0 s =
          Except.error (EngineError.missingTransactionMin m,
            poisonAt (poisonAt s t txn) t
              { txn with state := TransactionState.ABORTED_FAILED }) := hdel
      rw [hcontr] at herr
      simp at herr
    · have hs1 : s1 = s := get_record_body_ok_state hbody
      subst hs1
      rcases opt with _ | r
      · rfl
      · have hok := delete_explicit_ok ht0 hl hA hbody
        rw [hok] at herr
        simp at herr
  · intro hor
    have hb : get_record_body k t s = Except.ok (none, s) := (grb_none_iff k t s).mpr hor
    exact ⟨poisonAt s t txn, hnone hb⟩

/-- Witness for `c5_delete_contract`: deleting a key with no chain raises
KeyNotFound and poisons the ACTIVE transaction 3; deleting a key whose live
record the writer itself inserted appends exactly the tombstone copy. -/
theorem c5_delete_contract_witness :
    Server.delete "b" 3 0
        { database := [], transactions := [(3, ⟨3, TransactionState.ACTIVE⟩)] } =
      Except.error (EngineError.keyNotFound "b",
        poisonAt { database := [], transactions := [(3, ⟨3, TransactionState.ACTIVE⟩)] }
          3 ⟨3, TransactionState.ACTIVE⟩) ∧
    Server.delete "a" 5 0
        { database := [("a", [⟨"x", 5, 0⟩])],
          transactions := [(5, ⟨5, TransactionState.ACTIVE⟩)] } =
      Except.ok ((),
        { database := appendRecord [("a", [⟨"x", 5, 0⟩])] "a" ⟨"x", 5, 5⟩,
          transactions := [(5, ⟨5, TransactionState.ACTIVE⟩)] }) :=
  ⟨(c5_delete_contract
      { database := [], transactions := [(3, ⟨3, TransactionState.ACTIVE⟩)] }
      "b" 3 ⟨3, TransactionState.ACTIVE⟩ (by decide) (by decide) rfl).2.1 (by decide),
   ((c5_delete_contract
      { database := [("a", [⟨"x", 5, 0⟩])],
        transactions := [(5, ⟨5, TransactionState.ACTIVE⟩)] }
      "a" 5 ⟨5, TransactionState.ACTIVE⟩ (by decide) (by decide) rfl).2.2
      ⟨"x", 5, 0⟩ (by decide)).1⟩
